import Mathlib

/-!
# ICameraConfig.hpp: the UnitCamS3 camera profile

A shallow embedding of `src/ICameraConfig.hpp`.

* C `int`, `size_t` and enum values are integers (`Int`); every literal of the
  source fits a 32-bit `int`, so no wrap-around is involved.
* The header `esp_camera.h` is not part of the repository.  Its enumerators and
  `ESP_OK` are taken as parameters (`VendorConsts`), and the fields of its
  `camera_config_t` that the source never names are one component `rest` of a
  parameter type `Ext`.
* The calls into the driver and the platform (`esp_camera_init`,
  `esp_camera_sensor_get`, the two sensor operations, `delay`) are calls into a
  simulated environment `Env` with a private state; every call is appended to
  an effect trace carried in the `World`.
-/

namespace CameraConfig

/-- Enumerators and status code of `esp_camera.h` / ESP-IDF used by the source.
The header is not in the repository, so their integer values are parameters. -/
structure VendorConsts where
  ESP_OK : Int
  LEDC_CHANNEL_0 : Int
  LEDC_TIMER_0 : Int
  FRAMESIZE_HD : Int
  PIXFORMAT_JPEG : Int
  CAMERA_GRAB_LATEST : Int
  CAMERA_FB_IN_PSRAM : Int
  deriving DecidableEq, Repr

/-- The driver's configuration record: the 25 fields the source assigns, and
`rest` for whatever other fields the vendor's record has. -/
structure camera_config_t (Ext : Type) where
  pin_pwdn : Int
  pin_reset : Int
  pin_xclk : Int
  pin_sccb_sda : Int
  pin_sccb_scl : Int
  pin_d7 : Int
  pin_d6 : Int
  pin_d5 : Int
  pin_d4 : Int
  pin_d3 : Int
  pin_d2 : Int
  pin_d1 : Int
  pin_d0 : Int
  pin_vsync : Int
  pin_href : Int
  pin_pclk : Int
  xclk_freq_hz : Int
  ledc_timer : Int
  ledc_channel : Int
  pixel_format : Int
  frame_size : Int
  jpeg_quality : Int
  fb_count : Int
  fb_location : Int
  grab_mode : Int
  rest : Ext

/-- Value-initialisation `camera_config_t camCfg {}`: every scalar field is 0;
`z` is the zero value of the fields the source does not name. -/
def camera_config_t.zero {Ext : Type} (z : Ext) : camera_config_t Ext :=
  { pin_pwdn := 0, pin_reset := 0, pin_xclk := 0, pin_sccb_sda := 0,
    pin_sccb_scl := 0, pin_d7 := 0, pin_d6 := 0, pin_d5 := 0, pin_d4 := 0,
    pin_d3 := 0, pin_d2 := 0, pin_d1 := 0, pin_d0 := 0, pin_vsync := 0,
    pin_href := 0, pin_pclk := 0, xclk_freq_hz := 0, ledc_timer := 0,
    ledc_channel := 0, pixel_format := 0, frame_size := 0, jpeg_quality := 0,
    fb_count := 0, fb_location := 0, grab_mode := 0, rest := z }

/-- One external call made by the module, with its arguments.  `H` is the type
of sensor handles (`sensor_t *`). -/
inductive Effect (H Ext : Type) where
  | esp_camera_init (cfg : camera_config_t Ext)
  | esp_camera_sensor_get
  | set_vflip (pSensor : H) (enable : Int)
  | set_hmirror (pSensor : H) (enable : Int)
  | delay (ms : Int)

/-- A simulated driver and platform with private state `σ`.  Each operation
sees the current state and its arguments, answers, and moves the state.  The
sensor accessor answers with the handle the code then dereferences; the source
uses it without a null check, and the handle is a live sensor object here. -/
structure Env (σ H Ext : Type) where
  esp_camera_init : camera_config_t Ext → σ → Int × σ
  esp_camera_sensor_get : σ → H × σ
  set_vflip : H → Int → σ → Int × σ
  set_hmirror : H → Int → σ → Int × σ
  delay : Int → σ → σ

/-- The state outside the module: the environment's state and the calls made so
far, oldest first. -/
structure World (σ H Ext : Type) where
  st : σ
  trace : List (Effect H Ext)

section Calls

variable {σ H Ext : Type}

/-- Call `esp_camera_init(&cfg)`. -/
def callInit (E : Env σ H Ext) (cfg : camera_config_t Ext) (w : World σ H Ext) :
    Int × World σ H Ext :=
  let r := E.esp_camera_init cfg w.st
  (r.1, { st := r.2, trace := w.trace ++ [Effect.esp_camera_init cfg] })

/-- Call `esp_camera_sensor_get()`. -/
def callSensorGet (E : Env σ H Ext) (w : World σ H Ext) : H × World σ H Ext :=
  let r := E.esp_camera_sensor_get w.st
  (r.1, { st := r.2, trace := w.trace ++ [Effect.esp_camera_sensor_get] })

/-- Call `pSensor->set_vflip(pSensor, enable)`. -/
def callSetVflip (E : Env σ H Ext) (pSensor : H) (enable : Int) (w : World σ H Ext) :
    Int × World σ H Ext :=
  let r := E.set_vflip pSensor enable w.st
  (r.1, { st := r.2, trace := w.trace ++ [Effect.set_vflip pSensor enable] })

/-- Call `pSensor->set_hmirror(pSensor, enable)`. -/
def callSetHmirror (E : Env σ H Ext) (pSensor : H) (enable : Int) (w : World σ H Ext) :
    Int × World σ H Ext :=
  let r := E.set_hmirror pSensor enable w.st
  (r.1, { st := r.2, trace := w.trace ++ [Effect.set_hmirror pSensor enable] })

/-- Call `delay(ms)`. -/
def callDelay (E : Env σ H Ext) (ms : Int) (w : World σ H Ext) : World σ H Ext :=
  { st := E.delay ms w.st, trace := w.trace ++ [Effect.delay ms] }

end Calls

/-- The classes that implement the interface `ICameraConfig`; the source has
one. -/
inductive ICameraConfig where
  | UnitCamS3Config
  deriving DecidableEq, Repr

namespace UnitCamS3Config

def PWDN_GPIO_NUM : Int := -1
def RESET_GPIO_NUM : Int := -1
def XCLK_GPIO_NUM : Int := 11
def SIOD_GPIO_NUM : Int := 17
def SIOC_GPIO_NUM : Int := 41
def Y9_GPIO_NUM : Int := 13
def Y8_GPIO_NUM : Int := 4
def Y7_GPIO_NUM : Int := 10
def Y6_GPIO_NUM : Int := 5
def Y5_GPIO_NUM : Int := 7
def Y4_GPIO_NUM : Int := 16
def Y3_GPIO_NUM : Int := 15
def Y2_GPIO_NUM : Int := 6
def VSYNC_GPIO_NUM : Int := 42
def HREF_GPIO_NUM : Int := 18
def PCLK_GPIO_NUM : Int := 12

/-- Lines 41-66 of the source: the record `camCfg` as it stands when
`esp_camera_init` is called.  It starts value-initialised and each assignment
of the source, in the source's order, sets one field; no field is assigned
twice and no assignment reads the record. -/
def camCfg {Ext : Type} (V : VendorConsts) (z : Ext) : camera_config_t Ext :=
  { camera_config_t.zero z with
    ledc_channel := V.LEDC_CHANNEL_0
    ledc_timer := V.LEDC_TIMER_0
    pin_d0 := Y2_GPIO_NUM
    pin_d1 := Y3_GPIO_NUM
    pin_d2 := Y4_GPIO_NUM
    pin_d3 := Y5_GPIO_NUM
    pin_d4 := Y6_GPIO_NUM
    pin_d5 := Y7_GPIO_NUM
    pin_d6 := Y8_GPIO_NUM
    pin_d7 := Y9_GPIO_NUM
    pin_xclk := XCLK_GPIO_NUM
    pin_pclk := PCLK_GPIO_NUM
    pin_vsync := VSYNC_GPIO_NUM
    pin_href := HREF_GPIO_NUM
    pin_sccb_sda := SIOD_GPIO_NUM
    pin_sccb_scl := SIOC_GPIO_NUM
    pin_pwdn := PWDN_GPIO_NUM
    pin_reset := RESET_GPIO_NUM
    xclk_freq_hz := 20000000
    frame_size := V.FRAMESIZE_HD
    pixel_format := V.PIXFORMAT_JPEG
    grab_mode := V.CAMERA_GRAB_LATEST
    fb_location := V.CAMERA_FB_IN_PSRAM
    jpeg_quality := 16
    fb_count := 2 }

end UnitCamS3Config

section Methods

variable {σ H Ext : Type}

/-- The method `GetName`: returns the string literal and makes no call. -/
def GetName (self : ICameraConfig) (w : World σ H Ext) : String × World σ H Ext :=
  match self with
  | .UnitCamS3Config => ("UnitCamS3Config", w)

/-- The method `Initialize` (lines 23-77): build the record, call the driver,
and on `ESP_OK` fetch the sensor, turn on flip and mirror and wait. -/
def Initialize (V : VendorConsts) (E : Env σ H Ext) (z : Ext) (self : ICameraConfig)
    (w : World σ H Ext) : Bool × World σ H Ext :=
  match self with
  | .UnitCamS3Config =>
    let camCfg : camera_config_t Ext := UnitCamS3Config.camCfg V z
    let r := callInit E camCfg w
    let isOK : Bool := decide (r.1 = V.ESP_OK)
    if isOK then
      let s := callSensorGet E r.2
      let pSensor := s.1
      let f := callSetVflip E pSensor 1 s.2
      let m := callSetHmirror E pSensor 1 f.2
      let w4 := callDelay E 100 m.2
      (isOK, w4)
    else
      (isOK, r.2)

end Methods

/-! ## Predicates of the data model -/

/-- The sentinel for a pin that is not connected. -/
def PIN_UNUSED : Int := -1

/-- A GPIO index of the ESP32-S3: 0..48. -/
def isGpioIndex (p : Int) : Prop := 0 ≤ p ∧ p ≤ 48

instance (p : Int) : Decidable (isGpioIndex p) := by
  unfold isGpioIndex; infer_instance

/-- A pin field is well-formed when it is the sentinel or a GPIO index. -/
def pinWellFormed (p : Int) : Prop := p = PIN_UNUSED ∨ isGpioIndex p

instance (p : Int) : Decidable (pinWellFormed p) := by
  unfold pinWellFormed; infer_instance

/-- The 14 pin fields of the signals that are wired: data lines d0..d7, the
two clocks, the two syncs and the two-wire control bus. -/
def connectedPins {Ext : Type} (c : camera_config_t Ext) : List Int :=
  [c.pin_d0, c.pin_d1, c.pin_d2, c.pin_d3, c.pin_d4, c.pin_d5, c.pin_d6, c.pin_d7,
   c.pin_xclk, c.pin_pclk, c.pin_vsync, c.pin_href, c.pin_sccb_sda, c.pin_sccb_scl]

/-- All 16 pin fields of the record. -/
def allPins {Ext : Type} (c : camera_config_t Ext) : List Int :=
  connectedPins c ++ [c.pin_pwdn, c.pin_reset]

/-- Sample values for the vendor's constants. -/
def sampleConsts : VendorConsts :=
  { ESP_OK := 0, LEDC_CHANNEL_0 := 0, LEDC_TIMER_0 := 0, FRAMESIZE_HD := 11,
    PIXFORMAT_JPEG := 4, CAMERA_GRAB_LATEST := 1, CAMERA_FB_IN_PSRAM := 0 }

/-- A driver that accepts every configuration; its state counts the calls and
the sensor handle is 7. -/
def acceptingEnv : Env Nat Nat Unit :=
  { esp_camera_init := fun _ s => (0, s + 1)
    esp_camera_sensor_get := fun s => (7, s + 1)
    set_vflip := fun _ _ s => (0, s + 1)
    set_hmirror := fun _ _ s => (0, s + 1)
    delay := fun _ s => s + 1 }

/-- A driver that rejects every configuration with the code 261. -/
def rejectingEnv : Env Nat Nat Unit :=
  { acceptingEnv with esp_camera_init := fun _ s => (261, s + 1) }

/-- The world before any call. -/
def emptyWorld : World Nat Nat Unit := { st := 0, trace := [] }

/-! ## Shape of a run -/

section Runs

variable {σ H Ext : Type}

/-- A run in which the driver answers `ESP_OK`. -/
theorem Initialize_of_ok (V : VendorConsts) (E : Env σ H Ext) (z : Ext)
    (self : ICameraConfig) (w : World σ H Ext)
    (hok : (E.esp_camera_init (UnitCamS3Config.camCfg V z) w.st).1 = V.ESP_OK) :
    Initialize V E z self w =
      (true, callDelay E 100
        (callSetHmirror E (callSensorGet E (callInit E (UnitCamS3Config.camCfg V z) w).2).1 1
          (callSetVflip E (callSensorGet E (callInit E (UnitCamS3Config.camCfg V z) w).2).1 1
            (callSensorGet E (callInit E (UnitCamS3Config.camCfg V z) w).2).2).2).2) := by
  cases self
  have h : (callInit E (UnitCamS3Config.camCfg V z) w).1 = V.ESP_OK := hok
  simp [Initialize, h]

/-- A run in which the driver answers anything else. -/
theorem Initialize_of_fail (V : VendorConsts) (E : Env σ H Ext) (z : Ext)
    (self : ICameraConfig) (w : World σ H Ext)
    (hfail : (E.esp_camera_init (UnitCamS3Config.camCfg V z) w.st).1 ≠ V.ESP_OK) :
    Initialize V E z self w = (false, (callInit E (UnitCamS3Config.camCfg V z) w).2) := by
  cases self
  have h : (callInit E (UnitCamS3Config.camCfg V z) w).1 ≠ V.ESP_OK := hfail
  simp [Initialize, h]

/-- The trace of a run in which the driver answers anything else. -/
theorem Initialize_trace_of_fail (V : VendorConsts) (E : Env σ H Ext) (z : Ext)
    (self : ICameraConfig) (w : World σ H Ext)
    (hfail : (E.esp_camera_init (UnitCamS3Config.camCfg V z) w.st).1 ≠ V.ESP_OK) :
    (Initialize V E z self w).2.trace =
      w.trace ++ [Effect.esp_camera_init (UnitCamS3Config.camCfg V z)] := by
  rw [Initialize_of_fail V E z self w hfail]
  simp [callInit]

end Runs

/-! ## The claims -/

section Claims

variable {σ H Ext : Type}

/-- C3: when the driver's init call answers anything other than ESP_OK,
Initialize returns false and the driver init call is the only call it makes:
no sensor-handle retrieval, no flip, no mirror, no delay. -/
theorem C3_failure_run (V : VendorConsts) (E : Env σ H Ext) (z : Ext)
    (self : ICameraConfig) (w : World σ H Ext)
    (hfail : (E.esp_camera_init (UnitCamS3Config.camCfg V z) w.st).1 ≠ V.ESP_OK) :
    (Initialize V E z self w).1 = false ∧
    (Initialize V E z self w).2.trace =
      w.trace ++ [Effect.esp_camera_init (UnitCamS3Config.camCfg V z)] ∧
    (Initialize V E z self w).2.st =
      (E.esp_camera_init (UnitCamS3Config.camCfg V z) w.st).2 := by
  refine ⟨?_, Initialize_trace_of_fail V E z self w hfail, ?_⟩
  · rw [Initialize_of_fail V E z self w hfail]
  · rw [Initialize_of_fail V E z self w hfail]
    rfl

/-- C3, at the rejecting driver from the empty world: the run returns false and
its trace is the init call alone. -/
theorem C3_failure_run_witness :
    (rejectingEnv.esp_camera_init (UnitCamS3Config.camCfg sampleConsts ()) emptyWorld.st).1
        ≠ sampleConsts.ESP_OK ∧
    (Initialize sampleConsts rejectingEnv () ICameraConfig.UnitCamS3Config emptyWorld).1 = false ∧
    (Initialize sampleConsts rejectingEnv () ICameraConfig.UnitCamS3Config emptyWorld).2.trace =
      [Effect.esp_camera_init (UnitCamS3Config.camCfg sampleConsts ())] ∧
    (Initialize sampleConsts rejectingEnv () ICameraConfig.UnitCamS3Config emptyWorld).2.st = 1 :=
  ⟨by decide,
   C3_failure_run sampleConsts rejectingEnv () ICameraConfig.UnitCamS3Config emptyWorld
    (by decide)⟩

/-- C4: the boolean Initialize returns equals (r == ESP_OK) for the code r the
driver's init call answered, and stays the same when the sensor accessor, the
flip and mirror operations and the delay are replaced by any others. -/
theorem C4_result_iff_driver_ok (V : VendorConsts) (E : Env σ H Ext) (z : Ext)
    (self : ICameraConfig) (w : World σ H Ext) :
    (Initialize V E z self w).1 =
      decide ((E.esp_camera_init (UnitCamS3Config.camCfg V z) w.st).1 = V.ESP_OK) ∧
    ((Initialize V E z self w).1 = true ↔
      (E.esp_camera_init (UnitCamS3Config.camCfg V z) w.st).1 = V.ESP_OK) ∧
    ∀ (get : σ → H × σ) (vflip hmirror : H → Int → σ → Int × σ) (dly : Int → σ → σ),
      (Initialize V
        { esp_camera_init := E.esp_camera_init, esp_camera_sensor_get := get,
          set_vflip := vflip, set_hmirror := hmirror, delay := dly } z self w).1 =
      (Initialize V E z self w).1 := by
  have key : ∀ E1 : Env σ H Ext, (Initialize V E1 z self w).1 =
      decide ((E1.esp_camera_init (UnitCamS3Config.camCfg V z) w.st).1 = V.ESP_OK) := by
    intro E1
    by_cases hok : (E1.esp_camera_init (UnitCamS3Config.camCfg V z) w.st).1 = V.ESP_OK
    · rw [Initialize_of_ok V E1 z self w hok]; simp [hok]
    · rw [Initialize_of_fail V E1 z self w hok]; simp [hok]
  refine ⟨key E, ?_, ?_⟩
  · rw [key E]; simp
  · intro get vflip hmirror dly
    rw [key, key E]

/-- C5: GetName returns the constant "UnitCamS3Config", which is not the empty
string; the call leaves the world as it was (no call is recorded, the driver
state is untouched); the name is the same in any two worlds, in particular
after one and after two calls of Initialize; and two variants with the same
name are the same variant. -/
theorem C5_GetName_constant (V : VendorConsts) (E : Env σ H Ext) (z : Ext)
    (self : ICameraConfig) (w w' : World σ H Ext) :
    (GetName self w).1 = "UnitCamS3Config" ∧
    (GetName self w).1 ≠ "" ∧
    (GetName self w).2 = w ∧
    (GetName self w').1 = (GetName self w).1 ∧
    (GetName self (Initialize V E z self w).2).1 = (GetName self w).1 ∧
    (GetName self (Initialize V E z self (Initialize V E z self w).2).2).1
      = (GetName self w).1 ∧
    Function.Injective (fun v : ICameraConfig => (GetName v w).1) := by
  cases self
  refine ⟨rfl, ?_, rfl, rfl, rfl, rfl, ?_⟩
  · show "UnitCamS3Config" ≠ ""
    decide
  intro a b _
  cases a
  cases b
  rfl

/-- C6: in the record built by Initialize each of the 16 pin fields is the
sentinel -1 or a GPIO index 0..48, a negative pin field is -1, pin_pwdn and
pin_reset are -1 and not 0, fb_count is at least 1 and jpeg_quality lies in
0..63. -/
theorem C6_record_invariants (V : VendorConsts) (z : Ext) :
    (allPins (UnitCamS3Config.camCfg V z)).length = 16 ∧
    (∀ p ∈ allPins (UnitCamS3Config.camCfg V z), pinWellFormed p) ∧
    (∀ p ∈ allPins (UnitCamS3Config.camCfg V z), p < 0 → p = -1) ∧
    (UnitCamS3Config.camCfg V z).pin_pwdn = PIN_UNUSED ∧
    (UnitCamS3Config.camCfg V z).pin_reset = PIN_UNUSED ∧
    (UnitCamS3Config.camCfg V z).pin_pwdn = -1 ∧
    (UnitCamS3Config.camCfg V z).pin_reset = -1 ∧
    (UnitCamS3Config.camCfg V z).pin_pwdn ≠ 0 ∧
    (UnitCamS3Config.camCfg V z).pin_reset ≠ 0 ∧
    1 ≤ (UnitCamS3Config.camCfg V z).fb_count ∧
    0 ≤ (UnitCamS3Config.camCfg V z).jpeg_quality ∧
    (UnitCamS3Config.camCfg V z).jpeg_quality ≤ 63 := by
  have hpins : allPins (UnitCamS3Config.camCfg V z) =
      [6, 15, 16, 7, 5, 10, 4, 13, 11, 12, 42, 18, 17, 41, -1, -1] := rfl
  rw [hpins]
  refine ⟨rfl, by decide, by decide, rfl, rfl, rfl, rfl, ?_, ?_, ?_, ?_, ?_⟩
  · show (-1 : Int) ≠ 0
    decide
  · show (-1 : Int) ≠ 0
    decide
  · show (1 : Int) ≤ 2
    decide
  · show (0 : Int) ≤ 16
    decide
  · show (16 : Int) ≤ 63
    decide

/-- C9: in the record built by Initialize the 14 connected pin fields hold
pairwise distinct values, each a GPIO index and none the sentinel. -/
theorem C9_connected_pins_distinct (V : VendorConsts) (z : Ext) :
    (connectedPins (UnitCamS3Config.camCfg V z)).length = 14 ∧
    (connectedPins (UnitCamS3Config.camCfg V z)).Nodup ∧
    (∀ p ∈ connectedPins (UnitCamS3Config.camCfg V z), p ≠ PIN_UNUSED) ∧
    (∀ p ∈ connectedPins (UnitCamS3Config.camCfg V z), isGpioIndex p) := by
  have hpins : connectedPins (UnitCamS3Config.camCfg V z) =
      [6, 15, 16, 7, 5, 10, 4, 13, 11, 12, 42, 18, 17, 41] := rfl
  rw [hpins]
  refine ⟨rfl, by decide, by decide, by decide⟩

/-- C10: in the record built by Initialize pin_d1..pin_d6 are 15, 16, 7, 5, 10,
4, frame_size is FRAMESIZE_HD, pixel_format is PIXFORMAT_JPEG, jpeg_quality is
16, grab_mode is CAMERA_GRAB_LATEST, fb_location is CAMERA_FB_IN_PSRAM,
ledc_channel is LEDC_CHANNEL_0, ledc_timer is LEDC_TIMER_0, and the fields the
source does not assign have their value-initialised content. -/
theorem C10_remaining_fields (V : VendorConsts) (z : Ext) :
    (UnitCamS3Config.camCfg V z).pin_d1 = 15 ∧
    (UnitCamS3Config.camCfg V z).pin_d2 = 16 ∧
    (UnitCamS3Config.camCfg V z).pin_d3 = 7 ∧
    (UnitCamS3Config.camCfg V z).pin_d4 = 5 ∧
    (UnitCamS3Config.camCfg V z).pin_d5 = 10 ∧
    (UnitCamS3Config.camCfg V z).pin_d6 = 4 ∧
    (UnitCamS3Config.camCfg V z).frame_size = V.FRAMESIZE_HD ∧
    (UnitCamS3Config.camCfg V z).pixel_format = V.PIXFORMAT_JPEG ∧
    (UnitCamS3Config.camCfg V z).jpeg_quality = 16 ∧
    (UnitCamS3Config.camCfg V z).grab_mode = V.CAMERA_GRAB_LATEST ∧
    (UnitCamS3Config.camCfg V z).fb_location = V.CAMERA_FB_IN_PSRAM ∧
    (UnitCamS3Config.camCfg V z).ledc_channel = V.LEDC_CHANNEL_0 ∧
    (UnitCamS3Config.camCfg V z).ledc_timer = V.LEDC_TIMER_0 ∧
    (UnitCamS3Config.camCfg V z).rest = (camera_config_t.zero z).rest ∧
    (UnitCamS3Config.camCfg V z).rest = z :=
  ⟨rfl, rfl, rfl, rfl, rfl, rfl, rfl, rfl, rfl, rfl, rfl, rfl, rfl, rfl, rfl⟩

end Claims

end CameraConfig
